import Mathlib

/-!
Verification of the resilient API transport core of the notte-cli repository:
retry policy (internal/api/retry.go), circuit breaker (internal/api/circuit.go),
idempotency keys (internal/api/idempotency.go), resilient transport
(internal/api/client.go) and error classification (internal/errors/parse.go).

Conventions of the shallow embedding:
* Go `int` values (status codes, attempt counters, failure counters) are `Int`.
* Go `time.Time` / `time.Duration` values are `Int` nanoseconds; the zero value
  `time.Time{}` is 0.  `t.After(u)` is the strict comparison `u < t`.
* Go float64 arithmetic in `Backoff` is modeled with exact rationals (`ℚ`):
  the claims under study concern the algebraic structure of the computation
  (exponential growth, ±25% jitter, clamping), not float rounding.
* Go strings handled byte-wise (`SanitizeMessage`) are `List Nat` byte lists;
  UTF-8 decoding follows `unicode/utf8` (invalid bytes decode to U+FFFD and
  consume one byte).
* Randomness (`rand.Float64`, `crypto/rand.Read`) is passed in as an explicit
  parameter; a failing entropy source is `Option.none`.
* The underlying `http.RoundTripper` is an oracle `Nat → Option Response`
  mapping the attempt index to a response (`none` = transport-level error).
-/

set_option maxRecDepth 8000

namespace NotteCLI

/-! ### Retry policy — internal/api/retry.go -/

/-- `RetryConfig` from retry.go.  Durations are rational nanoseconds. -/
structure RetryConfig where
  MaxRetries : Int
  InitialBackoff : ℚ
  MaxBackoff : ℚ
  Jitter : Bool

/-- `DefaultRetryConfig` from retry.go: 3 retries, 1s initial, 30s max, jitter on. -/
def DefaultRetryConfig : RetryConfig :=
  ⟨3, 1000000000, 30000000000, true⟩

/-- `isIdempotent` from retry.go: GET, HEAD, OPTIONS. -/
def isIdempotent (method : String) : Bool :=
  method = "GET" || method = "HEAD" || method = "OPTIONS"

/-- `RetryConfig.ShouldRetry` from retry.go. -/
def ShouldRetry (c : RetryConfig) (statusCode : Int) (method : String) (attempt : Int) : Bool :=
  if c.MaxRetries ≤ attempt then false
  else if statusCode = 429 then true
  else if 500 ≤ statusCode ∧ statusCode < 600 then isIdempotent method
  else false

/-- `RetryConfig.Backoff` from retry.go.  `jit` is the value of
`rand.Float64()*2 - 1`, a number in [-1, 1); it is ignored when jitter is
disabled.  The cap at `MaxBackoff` is applied after the jitter. -/
def Backoff (c : RetryConfig) (jit : ℚ) (attempt : Nat) : ℚ :=
  let b0 : ℚ := c.InitialBackoff * 2 ^ attempt
  let b1 : ℚ := if c.Jitter then b0 + b0 * (1/4) * jit else b0
  if c.MaxBackoff < b1 then c.MaxBackoff else b1

/-! ### Circuit breaker — internal/api/circuit.go -/

/-- `CircuitState` from circuit.go. -/
inductive CircuitState where
  | CircuitClosed
  | CircuitOpen
  | CircuitHalfOpen
deriving DecidableEq, Repr

/-- `CircuitBreaker` fields from circuit.go (the mutex is irrelevant to the
sequential semantics modeled here). -/
structure CircuitBreaker where
  failures : Int
  threshold : Int
  resetPeriod : Int
  openUntil : Int
deriving DecidableEq, Repr

/-- `NewCircuitBreaker` from circuit.go: zero failures, zero `openUntil`. -/
def NewCircuitBreaker (threshold resetPeriod : Int) : CircuitBreaker :=
  ⟨0, threshold, resetPeriod, 0⟩

/-- `CircuitBreaker.stateUnlocked` from circuit.go.  `time.Now().After(openUntil)`
is the strict comparison `openUntil < now`. -/
def CircuitBreaker.stateUnlocked (cb : CircuitBreaker) (now : Int) : CircuitState :=
  if cb.failures < cb.threshold then .CircuitClosed
  else if cb.openUntil < now then .CircuitHalfOpen
  else .CircuitOpen

/-- `CircuitBreaker.State` from circuit.go (recomputed, never cached). -/
def CircuitBreaker.State (cb : CircuitBreaker) (now : Int) : CircuitState :=
  cb.stateUnlocked now

/-- `CircuitBreaker.Allow` from circuit.go. -/
def CircuitBreaker.Allow (cb : CircuitBreaker) (now : Int) : Bool :=
  cb.stateUnlocked now ≠ .CircuitOpen

/-- `CircuitBreaker.RecordSuccess` from circuit.go. -/
def CircuitBreaker.RecordSuccess (cb : CircuitBreaker) : CircuitBreaker :=
  ⟨0, cb.threshold, cb.resetPeriod, 0⟩

/-- `CircuitBreaker.RecordFailure` from circuit.go. -/
def CircuitBreaker.RecordFailure (cb : CircuitBreaker) (now : Int) : CircuitBreaker :=
  let f := cb.failures + 1
  ⟨f, cb.threshold, cb.resetPeriod,
    if cb.threshold ≤ f then now + cb.resetPeriod else cb.openUntil⟩

/-- `CircuitBreaker.OpenUntil` from circuit.go. -/
def CircuitBreaker.OpenUntil (cb : CircuitBreaker) : Int :=
  cb.openUntil

/-! ### Claims C1–C3 -/

/-- **C1.** For every status code `s`, method `m` and attempt `a`:
`ShouldRetry(s, m, a)` is false when `a ≥ MaxRetries`; otherwise true when
`s = 429`; otherwise, for `500 ≤ s < 600`, true exactly when `m` is GET, HEAD
or OPTIONS; in every other case false. -/
theorem c1_shouldRetry_cases (c : RetryConfig) (s : Int) (m : String) (a : Int) :
    (c.MaxRetries ≤ a → ShouldRetry c s m a = false) ∧
    (a < c.MaxRetries → s = 429 → ShouldRetry c s m a = true) ∧
    (a < c.MaxRetries → s ≠ 429 → 500 ≤ s → s < 600 →
      (ShouldRetry c s m a = true ↔ (m = "GET" ∨ m = "HEAD" ∨ m = "OPTIONS"))) ∧
    (a < c.MaxRetries → s ≠ 429 → ¬(500 ≤ s ∧ s < 600) → ShouldRetry c s m a = false) := by
  unfold ShouldRetry isIdempotent
  refine ⟨fun h => ?_, fun h h429 => ?_, fun h h429 h5 h6 => ?_, fun h h429 hno => ?_⟩
  · simp [h]
  · simp [h429, not_le.mpr h]
  · simp only [if_neg (not_le.mpr h), if_neg h429, if_pos (And.intro h5 h6)]
    simp only [Bool.or_eq_true, decide_eq_true_eq]
    tauto
  · simp only [if_neg (not_le.mpr h), if_neg h429, if_neg hno]

/-- Witness for C1 at concrete inputs (default config, `MaxRetries = 3`). -/
theorem c1_shouldRetry_cases_witness :
    ShouldRetry DefaultRetryConfig 429 "POST" 0 = true ∧
    ShouldRetry DefaultRetryConfig 503 "GET" 0 = true ∧
    ShouldRetry DefaultRetryConfig 500 "POST" 0 = false ∧
    ShouldRetry DefaultRetryConfig 503 "GET" 3 = false ∧
    ShouldRetry DefaultRetryConfig 404 "GET" 0 = false := by
  refine ⟨?_, ?_, ?_, ?_, ?_⟩
  · exact (c1_shouldRetry_cases DefaultRetryConfig 429 "POST" 0).2.1 (by decide) rfl
  · exact ((c1_shouldRetry_cases DefaultRetryConfig 503 "GET" 0).2.2.1 (by decide)
      (by decide) (by decide) (by decide)).mpr (Or.inl rfl)
  · have h := (c1_shouldRetry_cases DefaultRetryConfig 500 "POST" 0).2.2.1 (by decide)
      (by decide) (by decide) (by decide)
    simp only [show ¬("POST" = "GET" ∨ "POST" = "HEAD" ∨ "POST" = "OPTIONS") by decide,
      iff_false] at h
    exact Bool.not_eq_true _ ▸ h
  · exact (c1_shouldRetry_cases DefaultRetryConfig 503 "GET" 3).1 (by decide)
  · exact (c1_shouldRetry_cases DefaultRetryConfig 404 "GET" 0).2.2.2 (by decide)
      (by decide) (by decide)

/-- **C2 (amended).** The breaker's state is derived, never stored: Closed iff
`failures < threshold`; Open iff `failures ≥ threshold` and `now ≤ openUntil`
(the reset boundary is strict: the state stays Open while `now` equals
`openUntil` and becomes Half-Open only strictly after it); Half-Open iff
`failures ≥ threshold` and `openUntil < now`; `Allow` is true exactly when the
state is not Open, with no explicit transition call.  `RecordSuccess` sets
`failures` to 0 and clears `openUntil`; `RecordFailure` increments `failures`
and sets `openUntil = now + resetPeriod` exactly when the new count reaches the
threshold, leaving `openUntil` untouched otherwise; no operation other than
`RecordSuccess` lowers `failures`. -/
theorem c2_circuitBreaker_invariants (cb : CircuitBreaker) (now : Int) :
    (cb.stateUnlocked now = .CircuitClosed ↔ cb.failures < cb.threshold) ∧
    (cb.stateUnlocked now = .CircuitOpen ↔ cb.threshold ≤ cb.failures ∧ now ≤ cb.openUntil) ∧
    (cb.stateUnlocked now = .CircuitHalfOpen ↔ cb.threshold ≤ cb.failures ∧ cb.openUntil < now) ∧
    (cb.State now = cb.stateUnlocked now) ∧
    (cb.Allow now = true ↔ cb.stateUnlocked now ≠ .CircuitOpen) ∧
    ((cb.RecordSuccess).failures = 0 ∧ (cb.RecordSuccess).openUntil = 0) ∧
    ((cb.RecordFailure now).failures = cb.failures + 1) ∧
    (cb.threshold ≤ cb.failures + 1 → (cb.RecordFailure now).openUntil = now + cb.resetPeriod) ∧
    (cb.failures + 1 < cb.threshold → (cb.RecordFailure now).openUntil = cb.openUntil) := by
  refine ⟨?_, ?_, ?_, rfl, ?_, ⟨rfl, rfl⟩, rfl, fun h => ?_, fun h => ?_⟩
  · simp only [CircuitBreaker.stateUnlocked]
    split_ifs with h1 h2 <;> simp_all
  · simp only [CircuitBreaker.stateUnlocked]
    split_ifs with h1 h2 <;> simp_all
  · simp only [CircuitBreaker.stateUnlocked]
    split_ifs with h1 h2 <;> simp_all
  · simp [CircuitBreaker.Allow]
  · show (if cb.threshold ≤ cb.failures + 1 then now + cb.resetPeriod else cb.openUntil) =
      now + cb.resetPeriod
    rw [if_pos h]
  · show (if cb.threshold ≤ cb.failures + 1 then now + cb.resetPeriod else cb.openUntil) =
      cb.openUntil
    rw [if_neg (by omega)]

/-- Witness for C2: concrete breaker evolutions (`threshold = 3`). -/
theorem c2_circuitBreaker_invariants_witness :
    ((NewCircuitBreaker 3 100).stateUnlocked 0 = .CircuitClosed) ∧
    (((((NewCircuitBreaker 3 100).RecordFailure 0).RecordFailure 0).RecordFailure 0).stateUnlocked
      5 = .CircuitOpen) ∧
    (((((NewCircuitBreaker 3 100).RecordFailure 0).RecordFailure 0).RecordFailure 0).stateUnlocked
      101 = .CircuitHalfOpen) ∧
    ((((NewCircuitBreaker 3 100).RecordFailure 7).RecordSuccess).failures = 0) ∧
    (((NewCircuitBreaker 3 100).RecordFailure 7).openUntil = (NewCircuitBreaker 3 100).openUntil) := by
  refine ⟨?_, ?_, ?_, ?_, ?_⟩
  · exact (c2_circuitBreaker_invariants (NewCircuitBreaker 3 100) 0).1.mpr (by decide)
  · exact (c2_circuitBreaker_invariants
      ((((NewCircuitBreaker 3 100).RecordFailure 0).RecordFailure 0).RecordFailure 0) 5).2.1.mpr
      (by decide)
  · exact (c2_circuitBreaker_invariants
      ((((NewCircuitBreaker 3 100).RecordFailure 0).RecordFailure 0).RecordFailure 0) 101).2.2.1.mpr
      (by decide)
  · exact (c2_circuitBreaker_invariants ((NewCircuitBreaker 3 100).RecordFailure 7) 0).2.2.2.2.2.1.1
  · exact (c2_circuitBreaker_invariants (NewCircuitBreaker 3 100) 7).2.2.2.2.2.2.2.2 (by decide)

/-- **C2 counterexample.** The claim as stated puts the Open/Half-Open boundary
at `now ≥ openUntil`, but the code uses the strict `time.Now().After(openUntil)`:
after one failure of a threshold-1 breaker with `resetPeriod = 5` at time 0, the
state at `now = openUntil = 5` has `failures ≥ threshold` and `now ≥ openUntil`,
so the claim requires Half-Open (and `Allow = true`), yet the code yields Open
and `Allow = false`. -/
theorem c2_circuitBreaker_counterexample :
    (((NewCircuitBreaker 1 5).RecordFailure 0).threshold
        ≤ ((NewCircuitBreaker 1 5).RecordFailure 0).failures) ∧
    (((NewCircuitBreaker 1 5).RecordFailure 0).openUntil ≤ (5 : Int)) ∧
    ((NewCircuitBreaker 1 5).RecordFailure 0).stateUnlocked 5 ≠ .CircuitHalfOpen ∧
    ((NewCircuitBreaker 1 5).RecordFailure 0).stateUnlocked 5 = .CircuitOpen ∧
    ((NewCircuitBreaker 1 5).RecordFailure 0).Allow 5 = false := by
  decide

/-- **C3.** `Backoff(a)` is `InitialBackoff * 2^a` when jitter is disabled
(clamped to `MaxBackoff`; in particular with 1s initial and 30s max,
`Backoff 0 = 1s`, `Backoff 1 = 2s`, `Backoff 10 = MaxBackoff`); when jitter is
enabled the exponential value receives an additive perturbation of at most 25%
of itself before clamping; and for every attempt and every jitter outcome the
result never exceeds `MaxBackoff`. -/
theorem c3_backoff_correct (c : RetryConfig) (jit : ℚ) (a : Nat) :
    (c.Jitter = false → Backoff c jit a = min (c.InitialBackoff * 2 ^ a) c.MaxBackoff) ∧
    (Backoff c jit a ≤ c.MaxBackoff) ∧
    (c.Jitter = true → 0 ≤ c.InitialBackoff → |jit| ≤ 1 →
      ∃ p : ℚ, |p| ≤ c.InitialBackoff * 2 ^ a * (1/4) ∧
        Backoff c jit a = min (c.InitialBackoff * 2 ^ a + p) c.MaxBackoff) ∧
    (Backoff ⟨3, 1000000000, 30000000000, false⟩ jit 0 = 1000000000) ∧
    (Backoff ⟨3, 1000000000, 30000000000, false⟩ jit 1 = 2000000000) ∧
    (Backoff ⟨3, 1000000000, 30000000000, false⟩ jit 10 = 30000000000) := by
  refine ⟨fun hj => ?_, ?_, fun hj hI hjit => ?_, by norm_num [Backoff], by norm_num [Backoff],
    by norm_num [Backoff]⟩
  · unfold Backoff
    simp only [hj, if_false, Bool.false_eq_true]
    rw [min_comm, min_def]
    split_ifs with h1 h2 h2 <;> linarith
  · simp only [Backoff]
    split_ifs <;> linarith
  · refine ⟨c.InitialBackoff * 2 ^ a * (1/4) * jit, ?_, ?_⟩
    · rw [abs_mul]
      calc |c.InitialBackoff * 2 ^ a * (1/4)| * |jit|
          ≤ |c.InitialBackoff * 2 ^ a * (1/4)| * 1 := by
            exact mul_le_mul_of_nonneg_left hjit (abs_nonneg _)
        _ = c.InitialBackoff * 2 ^ a * (1/4) := by
            rw [mul_one, abs_of_nonneg (by positivity)]
    · unfold Backoff
      simp only [hj, if_true]
      rw [min_comm, min_def]
      split_ifs with h1 h2 h2 <;> linarith

/-- Witness for C3 at a concrete jittered input (`jit = 1/2`, default config). -/
theorem c3_backoff_correct_witness :
    (∃ p : ℚ, |p| ≤ 1000000000 * 2 ^ 1 * (1/4) ∧
      Backoff DefaultRetryConfig (1/2) 1 = min (1000000000 * 2 ^ 1 + p) 30000000000) ∧
    Backoff DefaultRetryConfig (1/2) 1 ≤ 30000000000 ∧
    Backoff ⟨3, 1000000000, 30000000000, false⟩ (1/2) 1 = 2000000000 := by
  refine ⟨(c3_backoff_correct DefaultRetryConfig (1/2) 1).2.2.1 rfl
      (by norm_num [DefaultRetryConfig])
      (by rw [abs_le]; constructor <;> norm_num),
    ?_, (c3_backoff_correct ⟨3, 1000000000, 30000000000, false⟩ (1/2) 1).2.2.2.2.1⟩
  exact (c3_backoff_correct DefaultRetryConfig (1/2) 1).2.1

/-! ### Idempotency keys — internal/api/idempotency.go -/

/-- `IdempotencyKeyHeader` from idempotency.go. -/
def IdempotencyKeyHeader : String := "Idempotency-Key"

/-- One hex digit of `encoding/hex` (lowercase alphabet `0123456789abcdef`). -/
def hexDigit (n : Nat) : Char :=
  if n < 10 then Char.ofNat (48 + n) else Char.ofNat (87 + n)

/-- `hex.EncodeToString` over a byte list.  Go bytes are below 256; `% 256`
makes the model total without changing any in-range value. -/
def hexEncode (bs : List Nat) : String :=
  ⟨(bs.map (fun b => [hexDigit (b % 256 / 16), hexDigit (b % 16)])).flatten⟩

/-- `GenerateIdempotencyKey` from idempotency.go: 32 random bytes, hex encoded.
The entropy source is the explicit argument; `none` is a `crypto/rand` failure. -/
def GenerateIdempotencyKey (rnd : Option (List Nat)) : Option String :=
  rnd.map hexEncode

/-- `IsMutatingMethod` from idempotency.go. -/
def IsMutatingMethod (method : String) : Bool :=
  method = "POST" || method = "PUT" || method = "PATCH" || method = "DELETE"

/-! ### Requests and headers -/

/-- The parts of `http.Request` the transport core reads or writes. -/
structure Request where
  method : String
  headers : List (String × String)
deriving DecidableEq, Repr

/-- `http.Header.Get`: the first value stored for the key, `""` when absent. -/
def headerGet (h : List (String × String)) (k : String) : String :=
  match h.find? (fun p => p.1 = k) with
  | some p => p.2
  | none => ""

/-- `http.Header.Set`: replace any existing values for the key. -/
def headerSet (h : List (String × String)) (k v : String) : List (String × String) :=
  (k, v) :: h.filter (fun p => p.1 ≠ k)

/-- `AddIdempotencyKey` from idempotency.go; on generation failure the request
proceeds unchanged rather than failing. -/
def AddIdempotencyKey (req : Request) (rnd : Option (List Nat)) : Request :=
  if IsMutatingMethod req.method then
    if headerGet req.headers IdempotencyKeyHeader = "" then
      match GenerateIdempotencyKey rnd with
      | some key => { req with headers := headerSet req.headers IdempotencyKeyHeader key }
      | none => req
    else req
  else req

/-! ### Resilient transport — internal/api/client.go -/

/-- The part of `http.Response` the retry loop inspects. -/
structure Response where
  StatusCode : Int
deriving DecidableEq, Repr

/-- Outcome of client.go's `doWithRetry` loop: a response, a transport-level
error, or nothing at all (`MaxRetries < 0`, where the Go loop body never runs
and both `resp` and `err` are nil). -/
inductive RetryOutcome where
  | resp (r : Response)
  | netErr
  | nilNil
deriving DecidableEq, Repr

/-- `cloneRequest` from client.go: same method and headers, fresh body. -/
def cloneRequest (req : Request) : Request :=
  ⟨req.method, req.headers⟩

/-- The loop body of `resilientTransport.doWithRetry` (client.go), recursing on
the remaining iteration budget.  Returns the outcome and the requests sent, in
order.  This loop never consults the request's context, and its backoff sleeps
are plain `time.Sleep` calls (sleep durations do not influence the outcome and
are not modeled). -/
def doWithRetryLoop (c : RetryConfig) (req : Request) (respond : Nat → Option Response) :
    Nat → Nat → RetryOutcome × List Request
  | _, 0 => (.nilNil, [])
  | attempt, fuel + 1 =>
    let sent := cloneRequest req
    match respond attempt with
    | none =>
      if ¬ isIdempotent req.method then (.netErr, [sent])
      else if (attempt : Int) < c.MaxRetries then
        let next := doWithRetryLoop c req respond (attempt + 1) fuel
        (next.1, sent :: next.2)
      else (.netErr, [sent])
    | some resp =>
      if ¬ ShouldRetry c resp.StatusCode req.method (attempt : Int) then (.resp resp, [sent])
      else if (attempt : Int) < c.MaxRetries then
        let next := doWithRetryLoop c req respond (attempt + 1) fuel
        (next.1, sent :: next.2)
      else (.resp resp, [sent])

/-- `resilientTransport.doWithRetry` from client.go: run the loop for attempts
`0 ≤ attempt ≤ MaxRetries`. -/
def doWithRetry (c : RetryConfig) (req : Request) (respond : Nat → Option Response) :
    RetryOutcome × List Request :=
  if 0 ≤ c.MaxRetries then doWithRetryLoop c req respond 0 (c.MaxRetries.toNat + 1)
  else (.nilNil, [])

/-- Result of `resilientTransport.RoundTrip`. -/
inductive RTResult where
  | resp (r : Response)
  | circuitBreakerError (openUntil : Int)
  | netErr
  | nilNil
deriving DecidableEq, Repr

/-- The immutable fields of `resilientTransport` (client.go); the circuit
breaker is threaded explicitly as state. -/
structure ResilientTransport where
  apiKey : String
  version : String
  retryConfig : RetryConfig

/-- The headers `RoundTrip` attaches before the retry loop starts:
authorization, the two tracking headers, then the idempotency key. -/
def withTransportHeaders (t : ResilientTransport) (req : Request)
    (rnd : Option (List Nat)) : Request :=
  let r1 : Request := ⟨req.method, headerSet req.headers "Authorization" ("Bearer " ++ t.apiKey)⟩
  let r2 : Request := ⟨r1.method, headerSet r1.headers "x-notte-request-origin" "cli"⟩
  let r3 : Request := ⟨r2.method, headerSet r2.headers "x-notte-sdk-version" t.version⟩
  AddIdempotencyKey r3 rnd

/-- `resilientTransport.RoundTrip` from client.go: breaker gate, header
attachment (idempotency key once, before the loop), retry loop, then exactly
one breaker update decided by the final outcome (any error or a final status
≥ 500 records a failure, anything else a success).  Returns the result, the
breaker after the call, and the requests sent. -/
def RoundTrip (t : ResilientTransport) (cb : CircuitBreaker) (now : Int) (req : Request)
    (rnd : Option (List Nat)) (respond : Nat → Option Response) :
    RTResult × CircuitBreaker × List Request :=
  if cb.Allow now = false then (.circuitBreakerError cb.OpenUntil, cb, [])
  else
    match doWithRetry t.retryConfig (withTransportHeaders t req rnd) respond with
    | (.netErr, sent) => (.netErr, cb.RecordFailure now, sent)
    | (.resp r, sent) =>
      if 500 ≤ r.StatusCode then (.resp r, cb.RecordFailure now, sent)
      else (.resp r, cb.RecordSuccess, sent)
    | (.nilNil, sent) => (.nilNil, cb, sent)

/-- Outcome of retry.go's `DoWithRetry`, which—unlike the transport's own
loop—checks `ctx.Err()` before every attempt. -/
inductive CtxRetryOutcome where
  | resp (r : Response)
  | netErr
  | ctxErr
  | nilNil
deriving DecidableEq, Repr

/-- Loop body of `DoWithRetry` from retry.go.  `ctxDone attempt` is whether the
caller's context is cancelled when checked at the start of iteration `attempt`;
its sleeps go through `sleepWithContext` and so end early on cancellation.
Returns the outcome and the number of requests actually executed. -/
def DoWithRetryLoopCtx (c : RetryConfig) (method : String) (ctxDone : Nat → Bool)
    (respond : Nat → Option Response) : Nat → Nat → CtxRetryOutcome × Nat
  | _, 0 => (.nilNil, 0)
  | attempt, fuel + 1 =>
    if ctxDone attempt then (.ctxErr, 0)
    else
      match respond attempt with
      | none =>
        if ¬ isIdempotent method then (.netErr, 1)
        else if (attempt : Int) < c.MaxRetries then
          let next := DoWithRetryLoopCtx c method ctxDone respond (attempt + 1) fuel
          (next.1, next.2 + 1)
        else (.netErr, 1)
      | some resp =>
        if ¬ ShouldRetry c resp.StatusCode method (attempt : Int) then (.resp resp, 1)
        else if (attempt : Int) < c.MaxRetries then
          let next := DoWithRetryLoopCtx c method ctxDone respond (attempt + 1) fuel
          (next.1, next.2 + 1)
        else (.resp resp, 1)

/-- `DoWithRetry` from retry.go (the context-aware retry helper). -/
def DoWithRetry (c : RetryConfig) (method : String) (ctxDone : Nat → Bool)
    (respond : Nat → Option Response) : CtxRetryOutcome × Nat :=
  if 0 ≤ c.MaxRetries then DoWithRetryLoopCtx c method ctxDone respond 0 (c.MaxRetries.toNat + 1)
  else (.nilNil, 0)

/-! ### Header and hex lemmas -/

theorem headerGet_set_self (h : List (String × String)) (k v : String) :
    headerGet (headerSet h k v) k = v := by
  simp [headerGet, headerSet, List.find?_cons]

theorem find_filter_ne (l : List (String × String)) (k k' : String) (hne : k' ≠ k) :
    (l.filter (fun p => p.1 ≠ k)).find? (fun p => p.1 = k')
      = l.find? (fun p => p.1 = k') := by
  induction l with
  | nil => rfl
  | cons p t ih =>
    by_cases hp : p.1 = k
    · have hp' : ¬ (p.1 = k') := fun hc => hne (hc ▸ hp)
      rw [List.filter_cons_of_neg (by simp [hp]), List.find?_cons_of_neg _ (by simp [hp']), ih]
    · rw [List.filter_cons_of_pos (by simp [hp])]
      by_cases hp' : p.1 = k'
      · rw [List.find?_cons_of_pos _ (by simp [hp']), List.find?_cons_of_pos _ (by simp [hp'])]
      · rw [List.find?_cons_of_neg _ (by simp [hp']), List.find?_cons_of_neg _ (by simp [hp']),
          ih]

theorem headerGet_set_ne (h : List (String × String)) (k k' v : String) (hne : k' ≠ k) :
    headerGet (headerSet h k v) k' = headerGet h k' := by
  simp only [headerGet, headerSet, List.find?_cons]
  have : (decide ((k, v).1 = k')) = false := by
    simp only [decide_eq_false_iff_not]
    exact fun hc => hne hc.symm
  rw [this, find_filter_ne h k k' hne]

theorem hexEncode_data_length (bs : List Nat) :
    ((bs.map (fun b => [hexDigit (b % 256 / 16), hexDigit (b % 16)])).flatten).length
      = 2 * bs.length := by
  induction bs with
  | nil => rfl
  | cons b t ih => simp only [List.map_cons, List.flatten_cons, List.length_append,
      List.length_cons, List.length_nil, ih, List.length_map]; omega

theorem hexDigit_isHex : ∀ n < 16,
    (48 ≤ (hexDigit n).toNat ∧ (hexDigit n).toNat ≤ 57) ∨
    (97 ≤ (hexDigit n).toNat ∧ (hexDigit n).toNat ≤ 102) := by decide

theorem hexEncode_chars (bs : List Nat) :
    ∀ ch ∈ (hexEncode bs).data,
      (48 ≤ ch.toNat ∧ ch.toNat ≤ 57) ∨ (97 ≤ ch.toNat ∧ ch.toNat ≤ 102) := by
  intro ch hch
  have hch' : ch ∈ (bs.map (fun b => [hexDigit (b % 256 / 16), hexDigit (b % 16)])).flatten := hch
  rw [List.mem_flatten] at hch'
  obtain ⟨l, hl, hchl⟩ := hch'
  rw [List.mem_map] at hl
  obtain ⟨b, _, rfl⟩ := hl
  have h1 : b % 256 / 16 < 16 := by omega
  have h2 : b % 16 < 16 := by omega
  simp only [List.mem_cons, List.not_mem_nil, or_false] at hchl
  rcases hchl with rfl | rfl
  · exact hexDigit_isHex _ h1
  · exact hexDigit_isHex _ h2

theorem doWithRetryLoop_sent_eq (c : RetryConfig) (req : Request)
    (respond : Nat → Option Response) :
    ∀ fuel attempt, ∀ r ∈ (doWithRetryLoop c req respond attempt fuel).2,
      r = cloneRequest req := by
  intro fuel
  induction fuel with
  | zero => intro attempt r hr; simp [doWithRetryLoop] at hr
  | succ fuel ih =>
    intro attempt r hr
    simp only [doWithRetryLoop] at hr
    rcases hresp : respond attempt with _ | resp <;> rw [hresp] at hr <;> dsimp only at hr
    · split_ifs at hr <;> simp_all
      rcases hr with hr | hr
      · exact hr
      · exact ih (attempt + 1) r hr
    · split_ifs at hr <;> simp_all
      rcases hr with hr | hr
      · exact hr
      · exact ih (attempt + 1) r hr

theorem doWithRetry_sent_eq (c : RetryConfig) (req : Request)
    (respond : Nat → Option Response) :
    ∀ r ∈ (doWithRetry c req respond).2, r = cloneRequest req := by
  intro r hr
  unfold doWithRetry at hr
  split_ifs at hr
  · exact doWithRetryLoop_sent_eq c req respond _ 0 r hr
  · simp at hr

/-! ### Claims C4, C5, C6, C10 -/

/-- **C4.** Mutating requests (POST/PUT/PATCH/DELETE) without an
`Idempotency-Key` header get one 64-character lowercase-hex key attached
exactly once, before the retry loop; a pre-set header is left unchanged;
non-mutating methods receive no such header; key-generation failure leaves the
request unchanged instead of failing; and every request sent by the retry loop
carries exactly the key attached before the loop started. -/
theorem c4_idempotency_key (req : Request) (bytes : List Nat) (rnd : Option (List Nat))
    (t : ResilientTransport) (cb : CircuitBreaker) (now : Int)
    (respond : Nat → Option Response) :
    (IsMutatingMethod req.method = true → headerGet req.headers IdempotencyKeyHeader = "" →
      headerGet (AddIdempotencyKey req (some bytes)).headers IdempotencyKeyHeader
        = hexEncode bytes) ∧
    (bytes.length = 32 → (hexEncode bytes).length = 64) ∧
    (∀ ch ∈ (hexEncode bytes).data,
      (48 ≤ ch.toNat ∧ ch.toNat ≤ 57) ∨ (97 ≤ ch.toNat ∧ ch.toNat ≤ 102)) ∧
    (headerGet req.headers IdempotencyKeyHeader ≠ "" → AddIdempotencyKey req rnd = req) ∧
    (IsMutatingMethod req.method = false → AddIdempotencyKey req rnd = req) ∧
    (AddIdempotencyKey req none = req) ∧
    (IsMutatingMethod req.method = false →
      headerGet (withTransportHeaders t req rnd).headers IdempotencyKeyHeader
        = headerGet req.headers IdempotencyKeyHeader) ∧
    (∀ r ∈ (RoundTrip t cb now req rnd respond).2.2,
      headerGet r.headers IdempotencyKeyHeader
        = headerGet (withTransportHeaders t req rnd).headers IdempotencyKeyHeader) := by
  refine ⟨fun hm hunset => ?_, fun h32 => ?_, hexEncode_chars bytes, fun hset => ?_,
    fun hnm => ?_, ?_, fun hnm => ?_, fun r hr => ?_⟩
  · simp only [AddIdempotencyKey, hm, hunset, if_true, GenerateIdempotencyKey, Option.map_some]
    exact headerGet_set_self _ _ _
  · have : (hexEncode bytes).length = 2 * bytes.length := hexEncode_data_length bytes
    omega
  · simp [AddIdempotencyKey, hset]
  · simp [AddIdempotencyKey, hnm]
  · simp only [AddIdempotencyKey, GenerateIdempotencyKey, Option.map_none]
    split_ifs <;> rfl
  · simp only [withTransportHeaders, AddIdempotencyKey, hnm, Bool.false_eq_true, if_false]
    rw [headerGet_set_ne _ _ _ _ (by decide), headerGet_set_ne _ _ _ _ (by decide),
      headerGet_set_ne _ _ _ _ (by decide)]
  · unfold RoundTrip at hr
    split_ifs at hr with hallow
    · simp at hr
    · rcases hdo : doWithRetry t.retryConfig (withTransportHeaders t req rnd) respond
        with ⟨o, sent⟩
      rw [hdo] at hr
      have hsent : r ∈ sent := by
        cases o <;> dsimp only at hr
        · split_ifs at hr <;> exact hr
        · exact hr
        · exact hr
      have heq := doWithRetry_sent_eq t.retryConfig (withTransportHeaders t req rnd) respond r
        (by rw [hdo]; exact hsent)
      rw [heq]
      rfl

/-- Witness for C4: a POST request, a concrete 32-byte entropy outcome, and a
concrete transport pipeline. -/
theorem c4_idempotency_key_witness :
    headerGet (AddIdempotencyKey ⟨"POST", []⟩ (some (List.replicate 32 171))).headers
        IdempotencyKeyHeader = hexEncode (List.replicate 32 171) ∧
    (hexEncode (List.replicate 32 171)).length = 64 ∧
    AddIdempotencyKey ⟨"GET", []⟩ (some (List.replicate 32 171)) = ⟨"GET", []⟩ ∧
    AddIdempotencyKey ⟨"POST", []⟩ none = ⟨"POST", []⟩ ∧
    AddIdempotencyKey ⟨"POST", [("Idempotency-Key", "preset")]⟩ (some (List.replicate 32 171))
      = ⟨"POST", [("Idempotency-Key", "preset")]⟩ := by
  refine ⟨?_, ?_, ?_, ?_, ?_⟩
  · exact (c4_idempotency_key ⟨"POST", []⟩ (List.replicate 32 171) none ⟨"", "", DefaultRetryConfig⟩
      (NewCircuitBreaker 5 0) 0 (fun _ => none)).1 (by decide) rfl
  · exact (c4_idempotency_key ⟨"POST", []⟩ (List.replicate 32 171) none ⟨"", "", DefaultRetryConfig⟩
      (NewCircuitBreaker 5 0) 0 (fun _ => none)).2.1 (by simp)
  · exact (c4_idempotency_key ⟨"GET", []⟩ (List.replicate 32 171)
      (some (List.replicate 32 171)) ⟨"", "", DefaultRetryConfig⟩
      (NewCircuitBreaker 5 0) 0 (fun _ => none)).2.2.2.2.1 (by decide)
  · exact (c4_idempotency_key ⟨"POST", []⟩ (List.replicate 32 171) none ⟨"", "", DefaultRetryConfig⟩
      (NewCircuitBreaker 5 0) 0 (fun _ => none)).2.2.2.2.2.1
  · exact (c4_idempotency_key ⟨"POST", [("Idempotency-Key", "preset")]⟩ (List.replicate 32 171)
      (some (List.replicate 32 171)) ⟨"", "", DefaultRetryConfig⟩
      (NewCircuitBreaker 5 0) 0 (fun _ => none)).2.2.2.1 (by decide)

/-- **C5 counterexample.** In the claimed scenario — a logical GET call whose
attempts all receive 503, `MaxRetries = 3`, a fresh breaker with threshold 5 —
the transport makes 4 attempts, but the breaker's failure count afterwards is
1, not 4 as the claim states: `RoundTrip` records a single breaker failure per
logical call, decided by the final outcome, not one per attempt. -/
theorem c5_failure_count_counterexample :
    (RoundTrip ⟨"key", "ver", DefaultRetryConfig⟩ (NewCircuitBreaker 5 30000000000)
        0 ⟨"GET", []⟩ none (fun _ => some ⟨503⟩)).2.2.length = 4 ∧
    (RoundTrip ⟨"key", "ver", DefaultRetryConfig⟩ (NewCircuitBreaker 5 30000000000)
        0 ⟨"GET", []⟩ none (fun _ => some ⟨503⟩)).2.1.failures = 1 ∧
    ¬ (RoundTrip ⟨"key", "ver", DefaultRetryConfig⟩ (NewCircuitBreaker 5 30000000000)
        0 ⟨"GET", []⟩ none (fun _ => some ⟨503⟩)).2.1.failures = 4 := by
  decide

/-- **C5 (amended).** A logical GET call whose attempts all receive 503, with
`MaxRetries = 3` and a fresh breaker of threshold 5, makes exactly 3 additional
attempts (4 total), returns the final 503 response, and leaves the breaker
closed with a failure count of 1 (one failure recorded for the whole logical
call, from its final outcome; 1 < 5). -/
theorem c5_get_503_scenario :
    (RoundTrip ⟨"key", "ver", DefaultRetryConfig⟩ (NewCircuitBreaker 5 30000000000)
        0 ⟨"GET", []⟩ none (fun _ => some ⟨503⟩)).1 = .resp ⟨503⟩ ∧
    (RoundTrip ⟨"key", "ver", DefaultRetryConfig⟩ (NewCircuitBreaker 5 30000000000)
        0 ⟨"GET", []⟩ none (fun _ => some ⟨503⟩)).2.2.length = 4 ∧
    (RoundTrip ⟨"key", "ver", DefaultRetryConfig⟩ (NewCircuitBreaker 5 30000000000)
        0 ⟨"GET", []⟩ none (fun _ => some ⟨503⟩)).2.1.failures = 1 ∧
    ((RoundTrip ⟨"key", "ver", DefaultRetryConfig⟩ (NewCircuitBreaker 5 30000000000)
        0 ⟨"GET", []⟩ none (fun _ => some ⟨503⟩)).2.1.stateUnlocked 0) = .CircuitClosed := by
  decide

/-- **C10.** Whenever the breaker admits the request and the retry loop exits
with a transport-level error (no HTTP response), `RoundTrip` records exactly
one circuit-breaker failure before returning the error: the breaker afterwards
is precisely `RecordFailure` of the breaker before, even though no status
≥ 500 was observed. -/
theorem c10_network_error_records_failure (t : ResilientTransport) (cb : CircuitBreaker)
    (now : Int) (req : Request) (rnd : Option (List Nat)) (respond : Nat → Option Response)
    (hallow : cb.Allow now = true)
    (herr : (RoundTrip t cb now req rnd respond).1 = .netErr) :
    (RoundTrip t cb now req rnd respond).2.1 = cb.RecordFailure now := by
  unfold RoundTrip at herr ⊢
  rw [if_neg (by simp [hallow])] at herr ⊢
  generalize doWithRetry t.retryConfig (withTransportHeaders t req rnd) respond = out at herr ⊢
  rcases out with ⟨o, sent⟩
  cases o <;> dsimp only at herr ⊢
  · split_ifs at herr ⊢
  · simp at herr

/-- Witness for C10: a POST call whose only attempt hits a network error; the
final breaker equals `RecordFailure` of the initial one (failures 0 → 1). -/
theorem c10_network_error_records_failure_witness :
    (RoundTrip ⟨"key", "ver", DefaultRetryConfig⟩ (NewCircuitBreaker 5 100) 0 ⟨"POST", []⟩ none
      (fun _ => none)).2.1 = (NewCircuitBreaker 5 100).RecordFailure 0 :=
  c10_network_error_records_failure ⟨"key", "ver", DefaultRetryConfig⟩
    (NewCircuitBreaker 5 100) 0 ⟨"POST", []⟩ none (fun _ => none) (by decide) (by decide)

/-- **C6 (the code, evaluated at the failing input).** The transport's retry
loop in client.go consumes no cancellation signal at all — on a GET call
answered by 503s it performs all four attempts and returns the last response,
with no cancellation outcome in its result type — whereas the context-aware
`DoWithRetry` of retry.go, which implements what the spec mandates, checks the
signal before every attempt: cancelled from the start it returns a cancellation
error having executed zero attempts, and without cancellation it agrees with
the transport loop. -/
theorem c6_transport_loop_ignores_cancellation :
    (doWithRetry DefaultRetryConfig ⟨"GET", []⟩ (fun _ => some ⟨503⟩)).2.length = 4 ∧
    (doWithRetry DefaultRetryConfig ⟨"GET", []⟩ (fun _ => some ⟨503⟩)).1 = .resp ⟨503⟩ ∧
    DoWithRetry DefaultRetryConfig "GET" (fun _ => true) (fun _ => some ⟨503⟩) = (.ctxErr, 0) ∧
    DoWithRetry DefaultRetryConfig "GET" (fun _ => false) (fun _ => some ⟨503⟩)
      = (.resp ⟨503⟩, 4) := by
  decide

/-! ### Message sanitization — internal/errors/parse.go, `SanitizeMessage`

Go strings are byte sequences; `len(msg)` and `msg[:500]` count and slice
bytes, while `for _, r := range msg` iterates decoded runes.  The model works
on byte lists and follows `unicode/utf8` decoding exactly: every invalid
sequence decodes to U+FFFD (65533) and consumes one byte. -/

/-- UTF-8 continuation byte (`10xxxxxx`). -/
def isCont (b : Nat) : Bool := 128 ≤ b && b ≤ 191

/-- Valid second byte of a three-byte sequence headed by `b` (per the
`unicode/utf8` accept ranges: E0 narrows to A0–BF, ED to 80–9F). -/
def accept3 (b c : Nat) : Bool :=
  if b = 224 then 160 ≤ c && c ≤ 191
  else if b = 237 then 128 ≤ c && c ≤ 159
  else isCont c

/-- Valid second byte of a four-byte sequence headed by `b` (F0 narrows to
90–BF, F4 to 80–8F). -/
def accept4 (b c : Nat) : Bool :=
  if b = 240 then 144 ≤ c && c ≤ 191
  else if b = 244 then 128 ≤ c && c ≤ 143
  else isCont c

/-- Rune sequence of a byte list under Go `for range` decoding, with fuel
(one unit per input byte suffices). -/
def utf8DecodeAux : Nat → List Nat → List Nat
  | 0, _ => []
  | _, [] => []
  | fuel + 1, b :: rest =>
    if b < 128 then b :: utf8DecodeAux fuel rest
    else if b < 194 then 65533 :: utf8DecodeAux fuel rest
    else if b ≤ 223 then
      match rest with
      | c :: rest2 =>
        if isCont c then ((b - 192) * 64 + (c - 128)) :: utf8DecodeAux fuel rest2
        else 65533 :: utf8DecodeAux fuel rest
      | [] => 65533 :: utf8DecodeAux fuel []
    else if b ≤ 239 then
      match rest with
      | c :: d :: rest3 =>
        if accept3 b c && isCont d then
          ((b - 224) * 4096 + (c - 128) * 64 + (d - 128)) :: utf8DecodeAux fuel rest3
        else 65533 :: utf8DecodeAux fuel rest
      | _ => 65533 :: utf8DecodeAux fuel rest
    else if b ≤ 244 then
      match rest with
      | c :: d :: e :: rest4 =>
        if accept4 b c && isCont d && isCont e then
          ((b - 240) * 262144 + (c - 128) * 4096 + (d - 128) * 64 + (e - 128))
            :: utf8DecodeAux fuel rest4
        else 65533 :: utf8DecodeAux fuel rest
      | _ => 65533 :: utf8DecodeAux fuel rest
    else 65533 :: utf8DecodeAux fuel rest

/-- The decoded runes of a byte list. -/
def utf8Decode (bs : List Nat) : List Nat := utf8DecodeAux bs.length bs

/-- `strings.Builder.WriteRune` encoding of one (valid) rune. -/
def utf8EncodeChar (r : Nat) : List Nat :=
  if r < 128 then [r]
  else if r < 2048 then [192 + r / 64, 128 + r % 64]
  else if r < 65536 then [224 + r / 4096, 128 + r / 64 % 64, 128 + r % 64]
  else [240 + r / 262144, 128 + r / 4096 % 64, 128 + r / 64 % 64, 128 + r % 64]

/-- `SanitizeMessage` from parse.go, on the string's bytes: truncate to 500
bytes appending "..." (byte 46) when longer, then keep exactly the decoded
runes `r` with `r ≥ 32` or `r = '\n'` (byte 10), re-encoded in UTF-8. -/
def SanitizeMessage (msg : List Nat) : List Nat :=
  let t := if 500 < msg.length then msg.take 500 ++ [46, 46, 46] else msg
  (((utf8Decode t).filter (fun r => 32 ≤ r ∨ r = 10)).map utf8EncodeChar).flatten

theorem utf8DecodeAux_ascii (fuel : Nat) :
    ∀ l : List Nat, l.length ≤ fuel → (∀ b ∈ l, b < 128) → utf8DecodeAux fuel l = l := by
  induction fuel with
  | zero =>
    intro l hf _
    match l with
    | [] => rfl
    | b :: t => simp at hf
  | succ fuel ih =>
    intro l hf h
    match l with
    | [] => rfl
    | b :: rest =>
      have hb : b < 128 := h b (by simp)
      simp only [utf8DecodeAux, if_pos hb]
      rw [ih rest (by simpa using Nat.le_of_succ_le_succ (by simpa using hf))
        (fun x hx => h x (by simp [hx]))]

theorem utf8Decode_ascii (l : List Nat) (h : ∀ b ∈ l, b < 128) : utf8Decode l = l :=
  utf8DecodeAux_ascii l.length l le_rfl h

theorem utf8Encode_flatten_ascii (l : List Nat) (h : ∀ b ∈ l, b < 128) :
    (l.map utf8EncodeChar).flatten = l := by
  induction l with
  | nil => rfl
  | cons b t ih =>
    simp only [List.map_cons, List.flatten_cons]
    rw [show utf8EncodeChar b = [b] from if_pos (h b (by simp))]
    rw [ih (fun x hx => h x (by simp [hx]))]
    rfl

/-- For ASCII byte lists, `SanitizeMessage` is the byte truncation followed by
a byte-level filter keeping printable bytes and newlines. -/
theorem sanitizeMessage_ascii (msg : List Nat) (h : ∀ b ∈ msg, b < 128) :
    SanitizeMessage msg
      = (if 500 < msg.length then msg.take 500 ++ [46, 46, 46] else msg).filter
          (fun b => 32 ≤ b ∨ b = 10) := by
  simp only [SanitizeMessage]
  have ht : ∀ b ∈ (if 500 < msg.length then msg.take 500 ++ [46, 46, 46] else msg), b < 128 := by
    intro b hb
    split_ifs at hb
    · rcases List.mem_append.mp hb with hb | hb
      · exact h b (List.take_subset _ _ hb)
      · simp only [List.mem_cons, List.not_mem_nil, or_false] at hb
        rcases hb with rfl | rfl | rfl <;> omega
    · exact h b hb
  rw [utf8Decode_ascii _ ht]
  exact utf8Encode_flatten_ascii _ (fun x hx => ht x (List.mem_of_mem_filter hx))

/-! ### Claim C9 -/

/-- **C9 (amended).** `SanitizeMessage` truncates inputs longer than 500
*bytes* (Go `len` counts bytes, not characters) to their first 500 bytes and
appends `"..."`, then strips every control rune except newline; on ASCII input
this is exactly byte truncation followed by dropping bytes below 32 other than
newline, and a 600-character input of repeated `"a"` yields exactly 500 `"a"`
characters followed by `"..."`, while control bytes are removed and newlines
kept. -/
theorem c9_sanitizeMessage (msg : List Nat) :
    ((∀ b ∈ msg, b < 128) → SanitizeMessage msg
        = (if 500 < msg.length then msg.take 500 ++ [46, 46, 46] else msg).filter
            (fun b => 32 ≤ b ∨ b = 10)) ∧
    SanitizeMessage (List.replicate 600 97) = List.replicate 500 97 ++ [46, 46, 46] ∧
    SanitizeMessage [104, 105, 0, 10, 9, 33] = [104, 105, 10, 33] := by
  refine ⟨sanitizeMessage_ascii msg, ?_, by decide⟩
  rw [sanitizeMessage_ascii _ (by intro b hb; rw [List.eq_of_mem_replicate hb]; omega)]
  rw [if_pos (by simp), List.take_replicate]
  have h500 : min 500 600 = 500 := by decide
  rw [h500, List.filter_append, List.filter_eq_self.mpr, List.filter_eq_self.mpr]
  · decide
  · intro b hb
    rw [List.eq_of_mem_replicate hb]
    decide

/-- Witness for C9: the general ASCII clause applied to the 600-byte input. -/
theorem c9_sanitizeMessage_witness :
    SanitizeMessage (List.replicate 600 97)
      = (if 500 < (List.replicate (α := Nat) 600 97).length
            then (List.replicate 600 97).take 500 ++ [46, 46, 46]
            else List.replicate 600 97).filter (fun b => 32 ≤ b ∨ b = 10) :=
  (c9_sanitizeMessage (List.replicate 600 97)).1
    (by intro b hb; rw [List.eq_of_mem_replicate hb]; omega)

/-- **C9 counterexample.** The claim counts *characters*: an input of 251
two-byte characters (`é`, U+00E9) is 251 characters — under 500, and none of
them control characters — so by the claim it must pass through unchanged; but
it is 502 bytes, so the code truncates it at byte 500 and appends `"..."`. -/
theorem c9_sanitizeMessage_counterexample :
    (utf8Decode (List.flatten (List.replicate 251 [195, 169]))).length = 251 ∧
    (∀ r ∈ utf8Decode (List.flatten (List.replicate 251 [195, 169])), 32 ≤ r ∧ r ≠ 10) ∧
    SanitizeMessage (List.flatten (List.replicate 251 [195, 169]))
      ≠ List.flatten (List.replicate 251 [195, 169]) := by
  decide

/-! ### Error classification — internal/errors/parse.go

The classifier takes the status code, the `Retry-After` header value (`""`
when absent, as `http.Header.Get` yields), the raw body text and the body's
JSON parse (`none` for malformed bodies); `encoding/json` itself is the
boundary.  String-typed Go values here are Lean `String`s; `SanitizeMessage`
is applied through their UTF-8 bytes. -/

/-- UTF-8 bytes of a string (Go strings are UTF-8 byte sequences). -/
def strBytes (s : String) : List Nat :=
  (s.data.map (fun c => utf8EncodeChar c.toNat)).flatten

/-- String from decoded runes (the decoder yields only valid scalar values). -/
def strOfBytes (bs : List Nat) : String :=
  ⟨(utf8Decode bs).map Char.ofNat⟩

/-- `SanitizeMessage` at the string level. -/
def SanitizeMessageS (s : String) : String :=
  strOfBytes (SanitizeMessage (strBytes s))

/-- JSON values (`encoding/json`); numbers are modeled as integers, which
covers every number these claims concern. -/
inductive Json where
  | null
  | bool (b : Bool)
  | num (n : Int)
  | str (s : String)
  | arr (elems : List Json)
  | obj (fields : List (String × Json))

/-- Object field lookup: `encoding/json` keeps the last duplicate key. -/
def jsonLookup (fields : List (String × Json)) (k : String) : Option Json :=
  (fields.reverse.find? (fun p => p.1 = k)).map (fun p => p.2)

mutual

/-- Compact rendering of a JSON value, standing in for the raw bytes
`string(detail)` of the original body; the classifier reaches it only for
`detail` values that are neither strings nor valid validation arrays. -/
def renderJson : Json → String
  | .null => "null"
  | .bool true => "true"
  | .bool false => "false"
  | .num n => toString n
  | .str s => "\x22" ++ s ++ "\x22"
  | .arr es => "[" ++ renderList es ++ "]"
  | .obj fs => "\x7b" ++ renderFields fs ++ "\x7d"

/-- Comma-separated rendering of array elements. -/
def renderList : List Json → String
  | [] => ""
  | [e] => renderJson e
  | e :: es => renderJson e ++ "," ++ renderList es

/-- Comma-separated rendering of object fields. -/
def renderFields : List (String × Json) → String
  | [] => ""
  | [(k, v)] => "\x22" ++ k ++ "\x22:" ++ renderJson v
  | (k, v) :: fs => "\x22" ++ k ++ "\x22:" ++ renderJson v ++ "," ++ renderFields fs

end

/-- `apiErrorResponse` from parse.go after `json.Unmarshal`: the raw `error`
and `detail` fields (`none` when absent, mirroring `json.RawMessage`) and the
flat `message` string. -/
structure ApiErrorResponse where
  error : Option Json
  message : String
  detail : Option Json

/-- `json.Unmarshal` into a string-typed struct field: absent and `null` leave
the zero value, a string sets it, anything else is a type error. -/
def unmarshalStringField (j : Option Json) : Option String :=
  match j with
  | none => some ""
  | some .null => some ""
  | some (.str s) => some s
  | some _ => none

/-- `json.Unmarshal(body, &apiResp)` for `apiErrorResponse`: the top level must
be an object (or `null`, a no-op); `message` must be a string and `status_code`
a number when present; `error` and `detail` are captured raw. -/
def unmarshalApiErrorResponse (j : Json) : Option ApiErrorResponse :=
  match j with
  | .null => some ⟨none, "", none⟩
  | .obj fs =>
    match unmarshalStringField (jsonLookup fs "message") with
    | none => none
    | some msg =>
      match jsonLookup fs "status_code" with
      | some (.num _) => some ⟨jsonLookup fs "error", msg, jsonLookup fs "detail"⟩
      | some .null => some ⟨jsonLookup fs "error", msg, jsonLookup fs "detail"⟩
      | none => some ⟨jsonLookup fs "error", msg, jsonLookup fs "detail"⟩
      | some _ => none
  | _ => none

/-- `nestedError` from parse.go. -/
structure NestedError where
  code : String
  message : String
  source : String
deriving DecidableEq, Repr

/-- `json.Unmarshal` of a raw value into `nestedError`. -/
def unmarshalNestedError (j : Json) : Option NestedError :=
  match j with
  | .null => some ⟨"", "", ""⟩
  | .obj fs =>
    match unmarshalStringField (jsonLookup fs "code"),
          unmarshalStringField (jsonLookup fs "message"),
          unmarshalStringField (jsonLookup fs "source") with
    | some c, some m, some s => some ⟨c, m, s⟩
    | _, _, _ => none
  | _ => none

/-- `json.Unmarshal` of a raw value into a `string` variable. -/
def unmarshalString (j : Json) : Option String :=
  match j with
  | .null => some ""
  | .str s => some s
  | _ => none

/-- `json.Unmarshal` of one array element into `fastAPIValidationError`,
yielding its `msg`: `loc` must be an array, `msg` and `type` strings, when
present. -/
def unmarshalValidationError (j : Json) : Option String :=
  match j with
  | .null => some ""
  | .obj fs =>
    match jsonLookup fs "loc" with
    | some (.arr _) | some .null | none =>
      match unmarshalStringField (jsonLookup fs "msg"),
            unmarshalStringField (jsonLookup fs "type") with
      | some m, some _ => some m
      | _, _ => none
    | some _ => none
  | _ => none

/-- `parseDetailMessage` from parse.go: a plain string, or an array of
validation entries whose non-empty `msg` values are joined with `"; "`, or the
raw detail text as fallback. -/
def parseDetailMessage (detail : Option Json) : String :=
  match detail with
  | none => ""
  | some d =>
    match unmarshalString d with
    | some s => s
    | none =>
      match d with
      | .arr es =>
        match es.mapM unmarshalValidationError with
        | some msgs =>
          if 0 < es.length then String.intercalate "; " (msgs.filter (fun m => m ≠ ""))
          else renderJson d
        | none => renderJson d
      | _ => renderJson d

/-- `extractErrorMessage` from parse.go: nested `error` object message, then
`error` as a plain string, then the flat `message`, then the `detail` field. -/
def extractErrorMessage (r : ApiErrorResponse) : String :=
  let m1 :=
    match r.error with
    | some e =>
      match unmarshalNestedError e with
      | some n => n.message
      | none =>
        match unmarshalString e with
        | some s => s
        | none => ""
    | none => ""
  let m2 := if m1 = "" then r.message else m1
  if m2 = "" then parseDetailMessage r.detail else m2

/-- `http.StatusText` from net/http. -/
def statusText (code : Int) : String :=
  match code with
  | 100 => "Continue"
  | 101 => "Switching Protocols"
  | 102 => "Processing"
  | 103 => "Early Hints"
  | 200 => "OK"
  | 201 => "Created"
  | 202 => "Accepted"
  | 203 => "Non-Authoritative Information"
  | 204 => "No Content"
  | 205 => "Reset Content"
  | 206 => "Partial Content"
  | 207 => "Multi-Status"
  | 208 => "Already Reported"
  | 226 => "IM Used"
  | 300 => "Multiple Choices"
  | 301 => "Moved Permanently"
  | 302 => "Found"
  | 303 => "See Other"
  | 304 => "Not Modified"
  | 305 => "Use Proxy"
  | 307 => "Temporary Redirect"
  | 308 => "Permanent Redirect"
  | 400 => "Bad Request"
  | 401 => "Unauthorized"
  | 402 => "Payment Required"
  | 403 => "Forbidden"
  | 404 => "Not Found"
  | 405 => "Method Not Allowed"
  | 406 => "Not Acceptable"
  | 407 => "Proxy Authentication Required"
  | 408 => "Request Timeout"
  | 409 => "Conflict"
  | 410 => "Gone"
  | 411 => "Length Required"
  | 412 => "Precondition Failed"
  | 413 => "Request Entity Too Large"
  | 414 => "Request URI Too Long"
  | 415 => "Unsupported Media Type"
  | 416 => "Requested Range Not Satisfiable"
  | 417 => "Expectation Failed"
  | 418 => "I\x27m a teapot"
  | 421 => "Misdirected Request"
  | 422 => "Unprocessable Entity"
  | 423 => "Locked"
  | 424 => "Failed Dependency"
  | 425 => "Too Early"
  | 426 => "Upgrade Required"
  | 428 => "Precondition Required"
  | 429 => "Too Many Requests"
  | 431 => "Request Header Fields Too Large"
  | 451 => "Unavailable For Legal Reasons"
  | 500 => "Internal Server Error"
  | 501 => "Not Implemented"
  | 502 => "Bad Gateway"
  | 503 => "Service Unavailable"
  | 504 => "Gateway Timeout"
  | 505 => "HTTP Version Not Supported"
  | 506 => "Variant Also Negotiates"
  | 507 => "Insufficient Storage"
  | 508 => "Loop Detected"
  | 510 => "Not Extended"
  | 511 => "Network Authentication Required"
  | _ => ""

/-- Value of a nonempty all-digit character list. -/
def digitsVal (l : List Char) : Option Nat :=
  if l = [] then none
  else l.foldl
    (fun acc c =>
      match acc with
      | none => none
      | some n => if 48 ≤ c.toNat ∧ c.toNat ≤ 57 then some (n * 10 + (c.toNat - 48)) else none)
    (some 0)

/-- `strconv.Atoi`: optional sign, decimal digits, 64-bit signed range;
`none` on any other input. -/
def Atoi (s : String) : Option Int :=
  match s.data with
  | '+' :: rest =>
    match digitsVal rest with
    | some n => if n ≤ 9223372036854775807 then some (n : Int) else none
    | none => none
  | '-' :: rest =>
    match digitsVal rest with
    | some n => if n ≤ 9223372036854775808 then some (-(n : Int)) else none
    | none => none
  | l =>
    match digitsVal l with
    | some n => if n ≤ 9223372036854775807 then some (n : Int) else none
    | none => none

/-- The typed errors `ParseAPIError` produces (internal/errors/types.go);
`retryAfter` is in nanoseconds (`time.Duration`). -/
inductive NotteError where
  | api (statusCode : Int) (code : String) (message : String) (source : String)
  | auth (reason : String) (message : String) (statusCode : Int)
  | rateLimit (retryAfter : Int)
deriving DecidableEq, Repr

/-- `parseRateLimitError` from parse.go: the `Retry-After` header parsed as
integer seconds, 60s when absent (`""`) or unparsable. -/
def parseRateLimitError (retryAfterHeader : String) : NotteError :=
  .rateLimit
    (if retryAfterHeader ≠ "" then
      match Atoi retryAfterHeader with
      | some seconds => seconds * 1000000000
      | none => 60 * 1000000000
    else 60 * 1000000000)

/-- The `code`/`source` pair for generic errors (parse.go lines 83–96): read
from the nested error object when the `error` field parses as one. -/
def extractCodeSource (apiResp : Option ApiErrorResponse) : String × String :=
  match apiResp with
  | some r =>
    match r.error with
    | some e =>
      match unmarshalNestedError e with
      | some n => (n.code, n.source)
      | none => ("", "")
    | none => ("", "")
  | none => ("", "")

/-- The message before sanitization (parse.go lines 55–65): extracted from the
parsed body, falling back to the raw body text when empty and the body
nonempty. -/
def classifyMessage (rawBody : String) (apiResp : Option ApiErrorResponse) : String :=
  let m :=
    match apiResp with
    | some r => extractErrorMessage r
    | none => ""
  if m = "" ∧ 0 < rawBody.length then rawBody else m

/-- `ParseAPIError` from parse.go. -/
def ParseAPIError (status : Int) (retryAfterHeader : String) (rawBody : String)
    (parsed : Option Json) : NotteError :=
  if status = 429 then parseRateLimitError retryAfterHeader
  else
    let apiResp := parsed.bind unmarshalApiErrorResponse
    let message := classifyMessage rawBody apiResp
    if status = 401 then .auth "invalid" (SanitizeMessageS message) status
    else if status = 403 then .auth "forbidden" (SanitizeMessageS message) status
    else
      let cs := extractCodeSource apiResp
      .api status (if cs.1 = "" then statusText status else cs.1) (SanitizeMessageS message) cs.2

/-! ### Claims C7 and C8 -/

/-- **C7.** Every 429 response classifies to a `RateLimitError` whose
`RetryAfter` is the `Retry-After` header parsed as integer seconds, defaulting
to 60 seconds when the header is absent (`""`) or unparsable; every 401
response yields `AuthError` with reason `"invalid"` and every 403 one with
reason `"forbidden"`, each carrying the status code and the sanitized
best-effort extracted message. -/
theorem c7_rate_limit_and_auth (h raw : String) (parsed : Option Json) (n : Int) :
    (∃ d, ParseAPIError 429 h raw parsed = .rateLimit d) ∧
    (ParseAPIError 429 "" raw parsed = .rateLimit (60 * 1000000000)) ∧
    (h ≠ "" → Atoi h = some n → ParseAPIError 429 h raw parsed = .rateLimit (n * 1000000000)) ∧
    (Atoi h = none → ParseAPIError 429 h raw parsed = .rateLimit (60 * 1000000000)) ∧
    (ParseAPIError 401 h raw parsed
      = .auth "invalid"
          (SanitizeMessageS (classifyMessage raw (parsed.bind unmarshalApiErrorResponse))) 401) ∧
    (ParseAPIError 403 h raw parsed
      = .auth "forbidden"
          (SanitizeMessageS (classifyMessage raw (parsed.bind unmarshalApiErrorResponse))) 403) := by
  refine ⟨⟨_, rfl⟩, rfl, fun hne hatoi => ?_, fun hatoi => ?_, rfl, rfl⟩
  · simp only [ParseAPIError, if_pos rfl, parseRateLimitError, if_pos hne, hatoi]
    exact if_pos trivial
  · simp only [ParseAPIError, if_pos rfl, parseRateLimitError, hatoi]
    split_ifs <;> rfl

/-- Witness for C7 at concrete headers and bodies: `Retry-After: 30` gives
30s, a garbage header gives the 60s default, and a 401 with a plain-text body
carries the sanitized body text. -/
theorem c7_rate_limit_and_auth_witness :
    ParseAPIError 429 "30" "" none = .rateLimit (30 * 1000000000) ∧
    ParseAPIError 429 "abc" "" none = .rateLimit (60 * 1000000000) ∧
    ParseAPIError 401 "" "access denied" none = .auth "invalid" "access denied" 401 := by
  refine ⟨(c7_rate_limit_and_auth "30" "" none 30).2.2.1 (by decide) (by decide),
    (c7_rate_limit_and_auth "abc" "" none 0).2.2.2.1 (by decide),
    ((c7_rate_limit_and_auth "" "access denied" none 0).2.2.2.2.1).trans (by decide)⟩

/-- **C8.** Every non-2xx status other than 429/401/403 classifies to an
`APIError` carrying that status, whose machine code comes from the nested
error object and falls back to the standard HTTP reason phrase when empty, and
whose message is the sanitized result of attempting, in order: the nested
`error` object's message, a flat string `error` field, a flat `message` field,
a `detail` field (plain string, or validation entries joined with `"; "`),
and finally the raw body text verbatim.  The order and the fallbacks are
pinned by the concrete bodies below (including the two examples from the
spec: the 422 validation array and the malformed 500 body). -/
theorem c8_api_error_extraction (status : Int) (h raw : String) (parsed : Option Json)
    (_h2xx : ¬(200 ≤ status ∧ status < 300))
    (h429 : status ≠ 429) (h401 : status ≠ 401) (h403 : status ≠ 403) :
    (ParseAPIError status h raw parsed
      = .api status
          (if (extractCodeSource (parsed.bind unmarshalApiErrorResponse)).1 = ""
            then statusText status
            else (extractCodeSource (parsed.bind unmarshalApiErrorResponse)).1)
          (SanitizeMessageS (classifyMessage raw (parsed.bind unmarshalApiErrorResponse)))
          (extractCodeSource (parsed.bind unmarshalApiErrorResponse)).2) ∧
    (ParseAPIError 400 "" "x"
        (some (.obj [("error", .obj [("code", .str "X1"), ("message", .str "nested wins"),
          ("source", .str "db")]), ("message", .str "flat msg")]))
      = .api 400 "X1" "nested wins" "db") ∧
    (ParseAPIError 400 "" "x"
        (some (.obj [("error", .str "flat error"), ("message", .str "flat msg")]))
      = .api 400 "Bad Request" "flat error" "") ∧
    (ParseAPIError 404 "" "x"
        (some (.obj [("message", .str "from message"), ("detail", .str "from detail")]))
      = .api 404 "Not Found" "from message" "") ∧
    (ParseAPIError 422 "" "x" (some (.obj [("detail", .str "detail value")]))
      = .api 422 "Unprocessable Entity" "detail value" "") ∧
    (ParseAPIError 422 "" "x"
        (some (.obj [("detail", .arr [.obj [("msg", .str "field required")],
          .obj [("msg", .str "invalid action type")]])]))
      = .api 422 "Unprocessable Entity" "field required; invalid action type" "") ∧
    (ParseAPIError 500 "" "oops not json" none
      = .api 500 "Internal Server Error" "oops not json" "" ∧
      SanitizeMessageS (classifyMessage "oops not json" none) ≠ "") := by
  refine ⟨?_, by decide, by decide, by decide, by decide, by decide, by decide, by decide⟩
  simp only [ParseAPIError, if_neg h429, if_neg h401, if_neg h403]

/-- Witness for C8: the general clause applied at a malformed 418 body. -/
theorem c8_api_error_extraction_witness :
    ParseAPIError 418 "" "teapot says no" none
      = .api 418
          (if (extractCodeSource ((none : Option Json).bind unmarshalApiErrorResponse)).1 = ""
            then statusText 418
            else (extractCodeSource ((none : Option Json).bind unmarshalApiErrorResponse)).1)
          (SanitizeMessageS (classifyMessage "teapot says no"
            ((none : Option Json).bind unmarshalApiErrorResponse)))
          (extractCodeSource ((none : Option Json).bind unmarshalApiErrorResponse)).2 :=
  (c8_api_error_extraction 418 "" "teapot says no" none (by decide) (by decide) (by decide)
    (by decide)).1

end NotteCLI
